import Mathlib

/-!
A shallow embedding of the INSIGHTORA ingestion strategy engine
(`src/insightora_core/src/io/csv_parser.rs` and
`src/insightora_core/src/python_bindings.rs`).

Modelling conventions:
* Machine integers (`usize`, `u64`) are `Nat`; the one place the source can
  wrap (`file_size * 2` on a `u64`) is written with an explicit `% 2 ^ 64`.
* The Polars collaborator engine and the file system are an explicit
  environment `Env`: `fs` is the combined `Path::exists` / `fs::metadata`
  lookup (byte size when the file exists), and `readCsv` is the
  `CsvReader::from_path ... finish()` pipeline, keyed by exactly the builder
  options the source sets (`CsvReaderOpts`).
* The global `GLOBAL_CONFIG` / `THREAD_POOL_INITIALIZED` mutable state is
  passed explicitly as `ProcState`; `configure`'s in-place mutations with an
  early `return Err` are modelled by returning the (possibly partially
  updated) state next to the result.
* Progress callbacks are modelled by a trace: the list of `(a, b)` argument
  pairs the callback receives, in order, empty when no callback is set.
* `parse_batches`'s consumer is modelled by the ordered list of batch tables
  it is invoked with (the success path: every invocation returns `Ok`).
-/

namespace Insightora

/-- The modulus of a 64-bit machine integer. -/
def U64 : Nat := 2 ^ 64

/-- The `std::io::ErrorKind` values the source constructs or that matter here. -/
inductive IoErrorKind where
  | NotFound
  | Other
  deriving DecidableEq

/-- `InsightoraError` from `python_bindings.rs` (payloads reduced to what the
variants carry: messages as strings, the memory variant's two numbers). -/
inductive InsightoraError where
  | IoError (kind : IoErrorKind) (msg : String)
  | ParseError (msg : String)
  | MemoryLimitExceeded (requested : Nat) (limit : Nat)
  | InvalidDataType (expected : String) (actual : String)
  | PolarsError (msg : String)
  | ThreadPoolError (msg : String)
  | ConfigError (msg : String)
  | ValidationError (msg : String)
  deriving DecidableEq

/-- Python-level exception classes used by `configure` (via PyO3). -/
inductive PyErr where
  | RuntimeError (msg : String)
  | ValueError (msg : String)
  | MemoryError (msg : String)
  | TypeError (msg : String)
  deriving DecidableEq

/-- `RustConfig` from `python_bindings.rs`. -/
structure RustConfig where
  thread_count : Nat
  chunk_size : Nat
  memory_limit_mb : Nat
  enable_simd : Bool
  cache_size : Nat
  deriving DecidableEq

/-- `RustConfig::default()`; `num_cpus::get()` is a parameter. -/
def RustConfig.default (numCpus : Nat) : RustConfig :=
  { thread_count := numCpus
    chunk_size := 100000
    memory_limit_mb := 4096
    enable_simd := true
    cache_size := 1000 }

/-- The process-global mutable state: `GLOBAL_CONFIG`, the
`THREAD_POOL_INITIALIZED` flag, and (for reasoning about pool rebuilds) the
thread count the global Rayon pool was actually built with, `none` before the
one-time `build_global`. -/
structure ProcState where
  config : RustConfig
  pool_initialized : Bool
  pool : Option Nat
  deriving DecidableEq

/-- Process state at startup: default config, pool not yet built. -/
def ProcState.initial (numCpus : Nat) : ProcState :=
  { config := RustConfig.default numCpus, pool_initialized := false, pool := none }

/-- The five optional arguments of `configure`. -/
structure ConfigureArgs where
  thread_count : Option Nat
  chunk_size : Option Nat
  memory_limit_mb : Option Nat
  enable_simd : Option Bool
  cache_size : Option Nat
  deriving DecidableEq

/-- The `thread_count` stage of `configure` (`python_bindings.rs:68-90`):
resolve 0 to `num_cpus::get()`, store it, and build the global pool sized to
the stored value if and only if the flag is still false. -/
def configureThread (numCpus : Nat) (s : ProcState) : Option Nat → ProcState
  | none => s
  | some tc =>
    let cfg := { s.config with thread_count := if tc = 0 then numCpus else tc }
    if s.pool_initialized then
      { s with config := cfg }
    else
      { config := cfg, pool_initialized := true, pool := some cfg.thread_count }

/-- The remaining stages of `configure` (`python_bindings.rs:92-114`), applied
to the state the `thread_count` stage produced.  A zero `chunk_size` or
`memory_limit_mb` returns the `PyValueError` early; mutations already made
stay in the returned state, exactly as the in-place Rust mutation behaves. -/
def configureRest (s : ProcState) (a : ConfigureArgs) : Except PyErr Unit × ProcState :=
  if a.chunk_size = some 0 then
    (.error (.ValueError "chunk_size must be greater than 0"), s)
  else
    let s := match a.chunk_size with
      | none => s
      | some cs => { s with config := { s.config with chunk_size := cs } }
    if a.memory_limit_mb = some 0 then
      (.error (.ValueError "memory_limit_mb must be greater than 0"), s)
    else
      let s := match a.memory_limit_mb with
        | none => s
        | some ml => { s with config := { s.config with memory_limit_mb := ml } }
      let s := match a.enable_simd with
        | none => s
        | some b => { s with config := { s.config with enable_simd := b } }
      let s := match a.cache_size with
        | none => s
        | some n => { s with config := { s.config with cache_size := n } }
      (.ok (), s)

/-- `configure` (`python_bindings.rs:57-115`): thread-count stage first, then
the validated field updates, in source order. -/
def configure (numCpus : Nat) (s : ProcState) (a : ConfigureArgs) :
    Except PyErr Unit × ProcState :=
  configureRest (configureThread numCpus s a.thread_count) a

/-- `get_config` / `get_current_config`: a snapshot (clone) of the config. -/
def get_current_config (s : ProcState) : RustConfig := s.config

/-- `check_memory_limit` (`python_bindings.rs:218-227`), with the global
config it reads passed explicitly. -/
def check_memory_limit (config : RustConfig) (estimated_mb : Nat) :
    Except InsightoraError Unit :=
  if estimated_mb > config.memory_limit_mb then
    .error (.MemoryLimitExceeded estimated_mb config.memory_limit_mb)
  else
    .ok ()

/-- The collaborator engine's columnar table: named, type-tagged columns and
row-major data.  The core only reads `height`, `slice` and the schema. -/
structure Table where
  schemaCols : List (String × String)
  rows : List (List String)
  deriving DecidableEq

/-- `DataFrame::height()`. -/
def Table.height (t : Table) : Nat := t.rows.length

/-- `DataFrame::slice(offset, length)` for the non-negative offsets the core
uses: the contiguous row window `[offset, offset + length)`. -/
def Table.slice (t : Table) (offset length : Nat) : Table :=
  { t with rows := (t.rows.drop offset).take length }

/-- The `CsvReader` builder options the source sets before `finish()`.
`quote_char` / `infer_schema_length` / `chunk_size` are `none` when the
corresponding builder method is not called on that code path. -/
structure CsvReaderOpts where
  has_header : Bool
  delimiter : Nat
  quote_char : Option (Option Nat)
  infer_schema_length : Option (Option Nat)
  chunk_size : Option Nat
  low_memory : Bool
  deriving DecidableEq

/-- The world outside the core: file metadata (`fs path` is the byte size
when the path exists, `none` when it does not) and the collaborator engine's
CSV pipeline keyed by the builder options used. -/
structure Env where
  fs : String → Option Nat
  readCsv : CsvReaderOpts → String → Except String Table

/-- `CsvParserConfig` (`csv_parser.rs:13-19`). -/
structure CsvParserConfig where
  chunk_size : Nat
  has_header : Bool
  delimiter : Nat
  quote_char : Nat
  infer_schema_length : Option Nat
  deriving DecidableEq

/-- `CsvParserConfig::default()`: delimiter `b','` = 44, quote `b'"'` = 34. -/
def CsvParserConfig.default : CsvParserConfig :=
  { chunk_size := 100000
    has_header := true
    delimiter := 44
    quote_char := 34
    infer_schema_length := some 1000 }

/-- `ParallelCsvParser`: just its configuration. -/
structure ParallelCsvParser where
  config : CsvParserConfig
  deriving DecidableEq

/-- `ParallelCsvParser::new()`: default options, chunk size taken from the
current global config. -/
def ParallelCsvParser.new (global : RustConfig) : ParallelCsvParser :=
  { config := { CsvParserConfig.default with chunk_size := global.chunk_size } }

/-- The reader options `ParallelCsvParser::parse` sets (`csv_parser.rs:85-91`). -/
def parallelOpts (c : CsvParserConfig) : CsvReaderOpts :=
  { has_header := c.has_header
    delimiter := c.delimiter
    quote_char := some (some c.quote_char)
    infer_schema_length := some c.infer_schema_length
    chunk_size := some c.chunk_size
    low_memory := false }

/-- `ParallelCsvParser::parse` (`csv_parser.rs:65-94`): existence check, the
2x-file-size memory pre-flight against the global ceiling (`u64` product, so
with an explicit wrap), then the delegated read. -/
def ParallelCsvParser.parse (env : Env) (global : RustConfig)
    (p : ParallelCsvParser) (file_path : String) : Except InsightoraError Table :=
  match env.fs file_path with
  | none => .error (.IoError .NotFound ("File not found: " ++ file_path))
  | some file_size =>
    let estimated_memory_mb := file_size * 2 % U64 / (1024 * 1024)
    match check_memory_limit global estimated_memory_mb with
    | .error e => .error e
    | .ok _ =>
      match env.readCsv (parallelOpts p.config) file_path with
      | .error e => .error (.PolarsError e)
      | .ok df => .ok df

/-- The reader options `ParallelCsvParser::infer_schema` sets
(`csv_parser.rs:158-162`): no quote char, no chunk size, no low-memory. -/
def schemaOpts (c : CsvParserConfig) : CsvReaderOpts :=
  { has_header := c.has_header
    delimiter := c.delimiter
    quote_char := none
    infer_schema_length := some c.infer_schema_length
    chunk_size := none
    low_memory := false }

/-- `ParallelCsvParser::infer_schema` (`csv_parser.rs:146-166`): existence
check only, then the delegated read's schema.  No memory pre-flight appears
on this path in the source. -/
def ParallelCsvParser.infer_schema (env : Env) (p : ParallelCsvParser)
    (file_path : String) : Except InsightoraError (List (String × String)) :=
  match env.fs file_path with
  | none => .error (.IoError .NotFound ("File not found: " ++ file_path))
  | some _ =>
    match env.readCsv (schemaOpts p.config) file_path with
    | .error e => .error (.PolarsError e)
    | .ok df => .ok df.schemaCols

/-- `StreamingCsvConfig` (`csv_parser.rs:243-248`). -/
structure StreamingCsvConfig where
  chunk_size : Nat
  memory_limit_mb : Nat
  has_header : Bool
  delimiter : Nat
  deriving DecidableEq

/-- `StreamingCsvConfig::default()`. -/
def StreamingCsvConfig.default : StreamingCsvConfig :=
  { chunk_size := 100000, memory_limit_mb := 1024, has_header := true, delimiter := 44 }

/-- `StreamingCsvParser`: its configuration and whether a progress callback
is registered (the callback itself is modelled by its invocation trace). -/
structure StreamingCsvParser where
  config : StreamingCsvConfig
  has_progress_callback : Bool

/-- The `CsvParserConfig` that `parse_streaming` builds for the below-threshold
delegate path (`csv_parser.rs:320-326`). -/
def streamToParallelConfig (c : StreamingCsvConfig) : CsvParserConfig :=
  { chunk_size := c.chunk_size
    has_header := c.has_header
    delimiter := c.delimiter
    quote_char := 34
    infer_schema_length := some 1000 }

/-- The low-memory reader options shared by `parse_streaming`'s at-threshold
path (`csv_parser.rs:331-336`) and `parse_batches` (`csv_parser.rs:369-373`):
identical builder calls on both paths. -/
def lowMemOpts (c : StreamingCsvConfig) : CsvReaderOpts :=
  { has_header := c.has_header
    delimiter := c.delimiter
    quote_char := none
    infer_schema_length := none
    chunk_size := some c.chunk_size
    low_memory := true }

/-- `StreamingCsvParser::parse_streaming` (`csv_parser.rs:300-344`).  Returns
the result together with the progress-callback invocation trace (one
`(file_size, file_size)` completion event on the low-memory path when a
callback is registered, none on the delegate path). -/
def StreamingCsvParser.parse_streaming (env : Env) (global : RustConfig)
    (p : StreamingCsvParser) (file_path : String) :
    Except InsightoraError Table × List (Nat × Nat) :=
  match env.fs file_path with
  | none => (.error (.IoError .NotFound ("File not found: " ++ file_path)), [])
  | some file_size =>
    let file_size_mb := file_size / (1024 * 1024)
    if file_size_mb < 100 then
      (ParallelCsvParser.parse env global ⟨streamToParallelConfig p.config⟩ file_path, [])
    else
      match env.readCsv (lowMemOpts p.config) file_path with
      | .error e => (.error (.PolarsError e), [])
      | .ok df =>
        (.ok df, if p.has_progress_callback then [(file_size, file_size)] else [])

/-- The batching loop of `parse_batches` (`csv_parser.rs:380-395`): from row
`start`, repeatedly slice `[start, min (start + chunk_size) total)`, record
the batch and the `(end, total_rows)` progress pair, and advance to `end`.
`fuel` bounds the iteration count so the recursion is structural; with
`chunk_size > 0` a fuel of `total - start` is exact (with `chunk_size = 0`
the Rust loop never terminates). -/
def batchesGo (chunk_size total : Nat) (df : Table) :
    Nat → Nat → List Table × List (Nat × Nat)
  | _, 0 => ([], [])
  | start, fuel + 1 =>
    if start < total then
      let e := min (start + chunk_size) total
      let rest := batchesGo chunk_size total df e fuel
      (df.slice start (e - start) :: rest.1, (e, total) :: rest.2)
    else ([], [])

/-- `StreamingCsvParser::parse_batches` (`csv_parser.rs:354-398`): existence
check, one full low-memory read, then the materialize-then-slice loop.  The
first component lists the tables the consumer is invoked with, in order (the
all-invocations-succeed path); the second is the progress trace, empty when
no callback is registered. -/
def StreamingCsvParser.parse_batches (env : Env) (p : StreamingCsvParser)
    (file_path : String) :
    Except InsightoraError (List Table × List (Nat × Nat)) :=
  match env.fs file_path with
  | none => .error (.IoError .NotFound ("File not found: " ++ file_path))
  | some _ =>
    match env.readCsv (lowMemOpts p.config) file_path with
    | .error e => .error (.PolarsError e)
    | .ok df =>
      let total_rows := df.height
      let run := batchesGo p.config.chunk_size total_rows df 0 total_rows
      .ok (run.1, if p.has_progress_callback then run.2 else [])

/-- `StreamingCsvParser::estimate_memory_usage` (`csv_parser.rs:401-410`):
the 2x-file-size heuristic in whole megabytes. -/
def StreamingCsvParser.estimate_memory_usage (env : Env)
    (_p : StreamingCsvParser) (file_path : String) : Except InsightoraError Nat :=
  match env.fs file_path with
  | none => .error (.IoError .NotFound ("File not found: " ++ file_path))
  | some file_size => .ok (file_size * 2 % U64 / (1024 * 1024))

/-- `StreamingCsvParser::should_use_streaming` (`csv_parser.rs:413-416`):
the estimate compared against the streaming config's own memory limit. -/
def StreamingCsvParser.should_use_streaming (env : Env)
    (p : StreamingCsvParser) (file_path : String) : Except InsightoraError Bool :=
  match StreamingCsvParser.estimate_memory_usage env p file_path with
  | .error e => .error e
  | .ok estimated_memory => .ok (decide (estimated_memory > p.config.memory_limit_mb))

/-- Decimal value of a digit list (most significant first). -/
def digitsToNat (l : List Char) : Nat :=
  l.foldl (fun acc c => acc * 10 + (c.toNat - 48)) 0

/-- Rust's `str::parse::<i64>()`: an optional single sign, then one or more
ASCII digits, the value fitting in a signed 64-bit integer. -/
def parseI64 (s : String) : Option Int :=
  match s.toList with
  | [] => none
  | c :: rest =>
    let signed : Bool × List Char :=
      if c = '-' then (true, rest)
      else if c = '+' then (false, rest)
      else (false, c :: rest)
    let ds := signed.2
    if ds.isEmpty || !ds.all Char.isDigit then none
    else
      let v : Int := if signed.1 then -(digitsToNat ds : Int) else (digitsToNat ds : Int)
      if -(2 ^ 63 : Int) ≤ v ∧ v ≤ 2 ^ 63 - 1 then some v else none

/-- The mantissa shape of Rust's `f64` grammar: `Digit+`, `Digit+ '.' Digit*`
or `Digit* '.' Digit+`. -/
def isMantissa (l : List Char) : Bool :=
  if l.contains '.' then
    let a := l.takeWhile (fun c => c ≠ '.')
    let b := (l.dropWhile (fun c => c ≠ '.')).tail
    a.all Char.isDigit && b.all Char.isDigit && !b.contains '.' && (!a.isEmpty || !b.isEmpty)
  else
    !l.isEmpty && l.all Char.isDigit

/-- The exponent tail of Rust's `f64` grammar: an optional sign then one or
more digits. -/
def isExpPart (l : List Char) : Bool :=
  match l with
  | [] => false
  | c :: rest =>
    let ds := if c = '+' ∨ c = '-' then rest else c :: rest
    !ds.isEmpty && ds.all Char.isDigit

/-- Split at the first `e`/`E`, if any: the mantissa part and the exponent
tail after the marker. -/
def splitAtExp (l : List Char) : List Char × Option (List Char) :=
  let m := l.takeWhile (fun c => c ≠ 'e' ∧ c ≠ 'E')
  match l.dropWhile (fun c => c ≠ 'e' ∧ c ≠ 'E') with
  | [] => (m, none)
  | _ :: rest => (m, some rest)

/-- Whether Rust's `str::parse::<f64>()` accepts the text: optional sign, then
`inf`/`infinity`/`nan` (case-insensitive) or `Number Exp?` per the documented
grammar. -/
def parsesF64 (s : String) : Bool :=
  match s.toList with
  | [] => false
  | c :: rest =>
    let body := if c = '+' ∨ c = '-' then rest else c :: rest
    let lower := body.map Char.toLower
    if lower = ['i', 'n', 'f'] ∨
        lower = ['i', 'n', 'f', 'i', 'n', 'i', 't', 'y'] ∨
        lower = ['n', 'a', 'n'] then
      true
    else
      match splitAtExp body with
      | (m, none) => isMantissa m
      | (m, some e) => isMantissa m && isExpPart e

/-- A Python value as appended by `series_to_python_list`.  A float is
represented by the text it was parsed from (the numeric `f64` itself is a
collaborator detail); `pynone` is Python's `None`. -/
inductive PyValue where
  | int (n : Int)
  | float (text : String)
  | bool (b : Bool)
  | str (s : String)
  | pynone
  deriving DecidableEq

/-- The per-cell reinterpretation in the loop of `series_to_python_list`
(`python_bindings.rs:305-322`): `i64` first, else `f64`, else exactly
`"true"`/`"false"`, else the text; an absent value becomes `None`. -/
def coerceCell : Option String → PyValue
  | none => .pynone
  | some val =>
    match parseI64 val with
    | some num => .int num
    | none =>
      if parsesF64 val then .float val
      else if val == "true" || val == "false" then .bool (val == "true")
      else .str val

/-- `series_to_python_list` (`python_bindings.rs:290-325`) after the
collaborator's cast-to-string: the rendered cells, each coerced. -/
def series_to_python_list (cells : List (Option String)) : List PyValue :=
  cells.map coerceCell

/-! ### Lemmas about the batching loop -/

theorem batchesGo_zero (C total : Nat) (df : Table) (start : Nat) :
    batchesGo C total df start 0 = ([], []) := rfl

theorem batchesGo_stop (C total : Nat) (df : Table) (start fuel : Nat)
    (hge : ¬ start < total) : batchesGo C total df start fuel = ([], []) := by
  cases fuel with
  | zero => rfl
  | succ fuel => simp [batchesGo, hge]

theorem batchesGo_step_fst (C total : Nat) (df : Table) (start fuel : Nat)
    (hlt : start < total) :
    (batchesGo C total df start (fuel + 1)).1 =
      df.slice start (min (start + C) total - start)
        :: (batchesGo C total df (min (start + C) total) fuel).1 := by
  simp [batchesGo, hlt]

theorem batchesGo_step_snd (C total : Nat) (df : Table) (start fuel : Nat)
    (hlt : start < total) :
    (batchesGo C total df start (fuel + 1)).2 =
      (min (start + C) total, total)
        :: (batchesGo C total df (min (start + C) total) fuel).2 := by
  simp [batchesGo, hlt]

/-- One loop iteration removes `min C n` of the `n` remaining rows (written
with truncated subtraction: `n - C` remain), and that decrements the ceiling
`(n + C - 1) / C` of the remaining batch count. -/
theorem ceilDiv_step (C n : Nat) (hC : 0 < C) (hn : 0 < n) :
    (n + C - 1) / C = (n - C + C - 1) / C + 1 := by
  rcases le_or_lt C n with h | h
  · rw [show n + C - 1 = n - C + C - 1 + C by omega, Nat.add_div_right _ hC]
  · have h1 : (n - C + C - 1) / C = 0 := Nat.div_eq_of_lt (by omega)
    have h2 : (n + C - 1) / C = 1 := Nat.div_eq_of_lt_le (by omega) (by omega)
    omega

theorem batchesGo_length (C : Nat) (hC : 0 < C) (total : Nat) (df : Table) :
    ∀ fuel start, total - start ≤ fuel →
      (batchesGo C total df start fuel).1.length = (total - start + C - 1) / C := by
  intro fuel
  induction fuel with
  | zero =>
    intro start h
    rw [batchesGo_zero]
    have h0 : total - start = 0 := by omega
    simp [h0, Nat.div_eq_of_lt (show C - 1 < C by omega)]
  | succ fuel ih =>
    intro start h
    by_cases hlt : start < total
    · rw [batchesGo_step_fst C total df start fuel hlt]
      have hfe : total - min (start + C) total ≤ fuel := by omega
      rw [List.length_cons, ih _ hfe]
      have hstep := ceilDiv_step C (total - start) hC (by omega)
      have hmm : total - min (start + C) total = total - start - C := by omega
      rw [hmm]
      omega
    · rw [batchesGo_stop C total df start _ hlt]
      have h0 : total - start = 0 := by omega
      simp [h0, Nat.div_eq_of_lt (show C - 1 < C by omega)]

theorem batchesGo_flatten (C : Nat) (hC : 0 < C) (df : Table) :
    ∀ fuel start, df.height - start ≤ fuel →
      ((batchesGo C df.height df start fuel).1.map Table.rows).flatten
        = df.rows.drop start := by
  intro fuel
  induction fuel with
  | zero =>
    intro start h
    rw [batchesGo_zero]
    have h0 : df.rows.length ≤ start := by
      have h1 : df.height - start = 0 := by omega
      simp only [Table.height] at h1
      omega
    simp [List.drop_eq_nil_of_le h0]
  | succ fuel ih =>
    intro start h
    by_cases hlt : start < df.height
    · rw [batchesGo_step_fst C df.height df start fuel hlt]
      have hfe : df.height - min (start + C) df.height ≤ fuel := by omega
      rw [List.map_cons, List.flatten_cons, ih _ hfe]
      show ((df.rows.drop start).take (min (start + C) df.height - start))
          ++ df.rows.drop (min (start + C) df.height) = df.rows.drop start
      have hdd : df.rows.drop (min (start + C) df.height)
          = (df.rows.drop start).drop (min (start + C) df.height - start) := by
        rw [List.drop_drop]
        congr 1
        omega
      rw [hdd, List.take_append_drop]
    · rw [batchesGo_stop C df.height df start _ hlt]
      have h0 : df.rows.length ≤ start := by
        simp only [Table.height] at hlt
        omega
      simp [List.drop_eq_nil_of_le h0]

theorem batchesGo_sizes (C : Nat) (hC : 0 < C) (df : Table) :
    ∀ fuel start, df.height - start ≤ fuel →
      (batchesGo C df.height df start fuel).1.map Table.height
        = (List.range ((df.height - start + C - 1) / C)).map
            (fun i => min C (df.height - start - i * C)) := by
  intro fuel
  induction fuel with
  | zero =>
    intro start h
    rw [batchesGo_zero]
    have h0 : df.height - start = 0 := by omega
    simp [h0, Nat.div_eq_of_lt (show C - 1 < C by omega)]
  | succ fuel ih =>
    intro start h
    by_cases hlt : start < df.height
    · rw [batchesGo_step_fst C df.height df start fuel hlt]
      have hfe : df.height - min (start + C) df.height ≤ fuel := by omega
      rw [List.map_cons, ih _ hfe]
      have hstep := ceilDiv_step C (df.height - start) hC (by omega)
      have hmm : df.height - min (start + C) df.height = df.height - start - C := by
        omega
      have hkr : (df.height - min (start + C) df.height + C - 1) / C
          = (df.height - start - C + C - 1) / C := by rw [hmm]
      rw [show (df.height - start + C - 1) / C
            = (df.height - min (start + C) df.height + C - 1) / C + 1 by omega]
      rw [List.range_succ_eq_map, List.map_cons, List.map_map]
      congr 1
      · show ((df.rows.drop start).take (min (start + C) df.height - start)).length
            = min C (df.height - start - 0 * C)
        simp only [List.length_take, List.length_drop, Table.height]
        omega
      · apply List.map_congr_left
        intro i _
        simp only [Function.comp_apply, Nat.succ_eq_add_one]
        have hmul : (i + 1) * C = i * C + C := by ring
        have hmul2 : (i + 1 + 1) * C = i * C + C + C := by ring
        omega
    · rw [batchesGo_stop C df.height df start _ hlt]
      have h0 : df.height - start = 0 := by omega
      simp [h0, Nat.div_eq_of_lt (show C - 1 < C by omega)]

theorem batchesGo_events (C : Nat) (hC : 0 < C) (total : Nat) (df : Table) :
    ∀ fuel start, total - start ≤ fuel →
      (batchesGo C total df start fuel).2
        = (List.range ((total - start + C - 1) / C)).map
            (fun i => (min (start + (i + 1) * C) total, total)) := by
  intro fuel
  induction fuel with
  | zero =>
    intro start h
    rw [batchesGo_zero]
    have h0 : total - start = 0 := by omega
    simp [h0, Nat.div_eq_of_lt (show C - 1 < C by omega)]
  | succ fuel ih =>
    intro start h
    by_cases hlt : start < total
    · rw [batchesGo_step_snd C total df start fuel hlt]
      have hfe : total - min (start + C) total ≤ fuel := by omega
      rw [ih _ hfe]
      have hstep := ceilDiv_step C (total - start) hC (by omega)
      have hmm : total - min (start + C) total = total - start - C := by omega
      have hkr : (total - min (start + C) total + C - 1) / C
          = (total - start - C + C - 1) / C := by rw [hmm]
      rw [show (total - start + C - 1) / C
            = (total - min (start + C) total + C - 1) / C + 1 by omega]
      rw [List.range_succ_eq_map, List.map_cons, List.map_map]
      congr 1
      · show (min (start + C) total, total) = (min (start + (0 + 1) * C) total, total)
        congr 2
        omega
      · apply List.map_congr_left
        intro i _
        simp only [Function.comp_apply, Nat.succ_eq_add_one]
        have hmul : (i + 1) * C = i * C + C := by ring
        have hmul2 : (i + 1 + 1) * C = i * C + C + C := by ring
        have hpair : min (min (start + C) total + (i + 1) * C) total
            = min (start + (i + 1 + 1) * C) total := by omega
        rw [hpair]
    · rw [batchesGo_stop C total df start _ hlt]
      have h0 : total - start = 0 := by omega
      simp [h0, Nat.div_eq_of_lt (show C - 1 < C by omega)]

/-- The ceiling `(R + C - 1) / C` in terms of quotient and remainder. -/
theorem chunk_ceil_eq (C R : Nat) (hC : 0 < C) :
    (R + C - 1) / C = R / C + (if R % C = 0 then 0 else 1) := by
  have hdm := Nat.div_add_mod R C
  have hcm : C * (R / C) = (R / C) * C := Nat.mul_comm _ _
  by_cases hr0 : R % C = 0
  · rw [if_pos hr0]
    rw [show R + C - 1 = (C - 1) + (R / C) * C by omega]
    rw [Nat.add_mul_div_right _ _ hC, Nat.div_eq_of_lt (by omega)]
    omega
  · rw [if_neg hr0]
    have hr : R % C < C := Nat.mod_lt _ hC
    rw [show R + C - 1 = (R % C + C - 1) + (R / C) * C by omega]
    rw [Nat.add_mul_div_right _ _ hC]
    have h1 : (R % C + C - 1) / C = 1 := Nat.div_eq_of_lt_le (by omega) (by omega)
    omega

/-- The `i`-th of `ceil(R / C)` batch sizes: `C` everywhere except the last,
which is `R mod C` unless that is zero, in which case it is `C` again. -/
theorem min_chunk_eq (C R i : Nat) (hC : 0 < C) (hi : i < (R + C - 1) / C) :
    min C (R - i * C)
      = if i + 1 = (R + C - 1) / C then
          (if R % C = 0 then C else R % C)
        else C := by
  have hdm := Nat.div_add_mod R C
  have hcm : C * (R / C) = (R / C) * C := Nat.mul_comm _ _
  have hr : R % C < C := Nat.mod_lt _ hC
  have hceil := chunk_ceil_eq C R hC
  by_cases hlast : i + 1 = (R + C - 1) / C
  · rw [if_pos hlast]
    by_cases hr0 : R % C = 0
    · rw [if_pos hr0]
      rw [if_pos hr0] at hceil
      have hq : R / C = i + 1 := by omega
      rw [hq] at hdm
      have h4 : C * (i + 1) = C * i + C := by ring
      have hcm2 : C * i = i * C := Nat.mul_comm _ _
      omega
    · rw [if_neg hr0]
      rw [if_neg hr0] at hceil
      have hq : R / C = i := by omega
      rw [hq] at hdm hcm
      omega
  · rw [if_neg hlast]
    have h1 : ((R + C - 1) / C) * C ≤ R + C - 1 := Nat.div_mul_le_self _ _
    have h2 : (i + 2) * C ≤ ((R + C - 1) / C) * C :=
      Nat.mul_le_mul_right _ (by omega)
    have h3 : (i + 2) * C = i * C + 2 * C := by ring
    omega

/-- C1: with `rowCount = R` and `chunkSize = C > 0`, `parse_batches` succeeds
and invokes its consumer exactly `ceil(R / C)` times with contiguous in-order
non-overlapping row windows: the batch rows concatenate (in delivery order)
back to exactly the table's rows, every batch has `C` rows except the last,
which has `R mod C` (or `C` when `R mod C = 0`), the registered observer
receives `(rowsProcessedSoFar, R)` after each batch, and a zero-row table
yields zero batches and zero progress events while the call still succeeds. -/
theorem parse_batches_spec (env : Env) (p : StreamingCsvParser) (path : String)
    (sz : Nat) (df : Table)
    (hfs : env.fs path = some sz)
    (hread : env.readCsv (lowMemOpts p.config) path = Except.ok df)
    (hC : 0 < p.config.chunk_size)
    (hcb : p.has_progress_callback = true) :
    ∃ bs ps,
      StreamingCsvParser.parse_batches env p path = Except.ok (bs, ps)
      ∧ bs.length
          = (df.height + p.config.chunk_size - 1) / p.config.chunk_size
      ∧ (bs.map Table.rows).flatten = df.rows
      ∧ bs.map Table.height
          = (List.range bs.length).map (fun i =>
              if i + 1 = bs.length then
                (if df.height % p.config.chunk_size = 0 then p.config.chunk_size
                 else df.height % p.config.chunk_size)
              else p.config.chunk_size)
      ∧ ps = (List.range bs.length).map
          (fun i => (min ((i + 1) * p.config.chunk_size) df.height, df.height))
      ∧ (df.height = 0 → bs = [] ∧ ps = []) := by
  have hlen := batchesGo_length p.config.chunk_size hC df.height df df.height 0
    (by omega)
  have hfl := batchesGo_flatten p.config.chunk_size hC df df.height 0 (by omega)
  have hsz := batchesGo_sizes p.config.chunk_size hC df df.height 0 (by omega)
  have hev := batchesGo_events p.config.chunk_size hC df.height df df.height 0
    (by omega)
  simp only [Nat.sub_zero, Nat.zero_add, List.drop_zero] at hlen hfl hsz hev
  refine ⟨(batchesGo p.config.chunk_size df.height df 0 df.height).1,
          (batchesGo p.config.chunk_size df.height df 0 df.height).2,
          ?_, ?_, ?_, ?_, ?_, ?_⟩
  · simp only [StreamingCsvParser.parse_batches, hfs, hread, hcb, if_true]
  · exact hlen
  · exact hfl
  · rw [hsz, hlen]
    apply List.map_congr_left
    intro i hi
    exact min_chunk_eq p.config.chunk_size df.height i hC (List.mem_range.mp hi)
  · rw [hev, hlen]
  · intro h0
    have hK : (df.height + p.config.chunk_size - 1) / p.config.chunk_size = 0 := by
      rw [h0]
      exact Nat.div_eq_of_lt (by omega)
    constructor
    · exact List.length_eq_zero.mp (by omega)
    · rw [hev, hK]
      simp

/-- A concrete seven-row table for the witnesses. -/
def tableW : Table :=
  { schemaCols := [("id", "Int64")]
    rows := [["1"], ["2"], ["3"], ["4"], ["5"], ["6"], ["7"]] }

/-- A concrete environment: one 1000-byte file `data.csv` that the engine
reads as `tableW`. -/
def envW : Env :=
  { fs := fun p => if p = "data.csv" then some 1000 else none
    readCsv := fun _ p => if p = "data.csv" then .ok tableW else .error "no such file" }

/-- A streaming ingestor with chunk size 3 and a registered callback. -/
def streamParserW : StreamingCsvParser :=
  { config := { chunk_size := 3, memory_limit_mb := 1024, has_header := true, delimiter := 44 }
    has_progress_callback := true }

/-- Witness for `parse_batches_spec` at the concrete seven-row table with
chunk size 3. -/
theorem parse_batches_spec_witness :
    ∃ bs ps,
      StreamingCsvParser.parse_batches envW streamParserW "data.csv" = Except.ok (bs, ps)
      ∧ bs.length
          = (tableW.height + streamParserW.config.chunk_size - 1)
              / streamParserW.config.chunk_size
      ∧ (bs.map Table.rows).flatten = tableW.rows
      ∧ bs.map Table.height
          = (List.range bs.length).map (fun i =>
              if i + 1 = bs.length then
                (if tableW.height % streamParserW.config.chunk_size = 0 then
                  streamParserW.config.chunk_size
                 else tableW.height % streamParserW.config.chunk_size)
              else streamParserW.config.chunk_size)
      ∧ ps = (List.range bs.length).map
          (fun i => (min ((i + 1) * streamParserW.config.chunk_size) tableW.height,
            tableW.height))
      ∧ (tableW.height = 0 → bs = [] ∧ ps = []) :=
  parse_batches_spec envW streamParserW "data.csv" 1000 tableW rfl rfl
    (by decide) rfl

/-- A concrete environment with one 100 MB file `big.csv`. -/
def envBig : Env :=
  { fs := fun p => if p = "big.csv" then some 104857600 else none
    readCsv := fun _ p => if p = "big.csv" then .ok tableW else .error "no such file" }

/-- A parallel ingestor with the default option set. -/
def parserW : ParallelCsvParser := { config := CsvParserConfig.default }

/-- A tight global config whose 100 MB ceiling the 100 MB file's 200 MB
estimate exceeds. -/
def globalTight : RustConfig :=
  { thread_count := 8, chunk_size := 100000, memory_limit_mb := 100,
    enable_simd := true, cache_size := 1000 }

/-- C2: for an existing file, `parse_streaming` delegates to the parallel
ingestor (with the translated options) exactly when the file size in whole
megabytes is strictly below 100, and the at-or-above-threshold side — a file
of exactly 100 MB = 104857600 bytes included — runs the low-memory
collaborator read instead: the boundary is inclusive on the streaming side. -/
theorem parse_streaming_threshold (env : Env) (global : RustConfig)
    (p : StreamingCsvParser) (path : String) (sz : Nat)
    (hfs : env.fs path = some sz) :
    (sz / (1024 * 1024) < 100 →
      StreamingCsvParser.parse_streaming env global p path
        = (ParallelCsvParser.parse env global ⟨streamToParallelConfig p.config⟩ path, []))
    ∧ (100 ≤ sz / (1024 * 1024) →
      StreamingCsvParser.parse_streaming env global p path
        = (match env.readCsv (lowMemOpts p.config) path with
            | .error e => (.error (.PolarsError e), [])
            | .ok df => (.ok df, if p.has_progress_callback then [(sz, sz)] else [])))
    ∧ (sz = 104857600 → 100 ≤ sz / (1024 * 1024)) := by
  refine ⟨?_, ?_, ?_⟩
  · intro h
    simp only [StreamingCsvParser.parse_streaming, hfs]
    rw [if_pos h]
  · intro h
    simp only [StreamingCsvParser.parse_streaming, hfs]
    rw [if_neg (by omega)]
  · intro h
    subst h
    omega

/-- Witness for `parse_streaming_threshold` at a file of exactly 100 MB. -/
theorem parse_streaming_threshold_witness :
    (104857600 / (1024 * 1024) < 100 →
      StreamingCsvParser.parse_streaming envBig (RustConfig.default 8) streamParserW "big.csv"
        = (ParallelCsvParser.parse envBig (RustConfig.default 8)
            ⟨streamToParallelConfig streamParserW.config⟩ "big.csv", []))
    ∧ (100 ≤ 104857600 / (1024 * 1024) →
      StreamingCsvParser.parse_streaming envBig (RustConfig.default 8) streamParserW "big.csv"
        = (match envBig.readCsv (lowMemOpts streamParserW.config) "big.csv" with
            | .error e => (.error (.PolarsError e), [])
            | .ok df => (.ok df, if streamParserW.has_progress_callback then
                [(104857600, 104857600)] else [])))
    ∧ (104857600 = 104857600 → 100 ≤ 104857600 / (1024 * 1024)) :=
  parse_streaming_threshold envBig (RustConfig.default 8) streamParserW "big.csv"
    104857600 rfl

/-- C3: `ParallelCsvParser::parse` fails with `NotFound` on a missing path;
on an existing path it fails with `MemoryLimitExceeded{requested, limit}`
exactly when the 2x-size estimate strictly exceeds the global ceiling — and
does so for every possible collaborator `readCsv`, i.e. before any read —
and otherwise returns the collaborator engine's result. -/
theorem parallel_parse_spec (env : Env) (global : RustConfig)
    (p : ParallelCsvParser) (path : String) :
    (env.fs path = none →
      ParallelCsvParser.parse env global p path
        = .error (.IoError .NotFound ("File not found: " ++ path)))
    ∧ (∀ sz, env.fs path = some sz →
        (sz * 2 % U64 / (1024 * 1024) > global.memory_limit_mb →
          (∀ rc, ParallelCsvParser.parse { env with readCsv := rc } global p path
              = .error (.MemoryLimitExceeded (sz * 2 % U64 / (1024 * 1024))
                  global.memory_limit_mb)))
        ∧ (sz * 2 % U64 / (1024 * 1024) ≤ global.memory_limit_mb →
          ParallelCsvParser.parse env global p path
            = (env.readCsv (parallelOpts p.config) path).mapError .PolarsError)) := by
  refine ⟨?_, ?_⟩
  · intro h
    simp only [ParallelCsvParser.parse, h]
  · intro sz hfs
    refine ⟨?_, ?_⟩
    · intro hover rc
      simp only [ParallelCsvParser.parse, hfs, check_memory_limit]
      rw [if_pos hover]
    · intro hunder
      simp only [ParallelCsvParser.parse, hfs, check_memory_limit]
      rw [if_neg (by omega)]
      cases env.readCsv (parallelOpts p.config) path <;> rfl

/-- Witness for `parallel_parse_spec`: the missing-file case, the over-limit
case (estimate 200 MB against a 100 MB ceiling, for an engine that would
succeed), and the under-limit delegate case (200 MB against 4096 MB). -/
theorem parallel_parse_spec_witness :
    ParallelCsvParser.parse envBig globalTight parserW "missing.csv"
      = .error (.IoError .NotFound ("File not found: " ++ "missing.csv"))
    ∧ (∀ rc, ParallelCsvParser.parse { envBig with readCsv := rc } globalTight
          parserW "big.csv"
        = .error (.MemoryLimitExceeded (104857600 * 2 % U64 / (1024 * 1024)) 100))
    ∧ ParallelCsvParser.parse envBig (RustConfig.default 8) parserW "big.csv"
        = (envBig.readCsv (parallelOpts parserW.config) "big.csv").mapError .PolarsError :=
  ⟨(parallel_parse_spec envBig globalTight parserW "missing.csv").1 rfl,
   ((parallel_parse_spec envBig globalTight parserW "big.csv").2 104857600 rfl).1
     (by decide),
   ((parallel_parse_spec envBig (RustConfig.default 8) parserW "big.csv").2
     104857600 rfl).2 (by decide)⟩

/-- A concrete environment with one 8 GiB file `huge.csv` (estimate
16384 MB, far above the default 4096 MB ceiling) that the engine would read
as `tableW`. -/
def envHuge : Env :=
  { fs := fun p => if p = "huge.csv" then some (2 ^ 33) else none
    readCsv := fun _ p => if p = "huge.csv" then .ok tableW else .error "no such file" }

/-- Counterexample to C5: on the same existing `huge.csv`, whose 2x-size
estimate (16384 MB) exceeds the default ceiling (4096 MB), `parse` fails the
memory pre-flight but `infer_schema` succeeds and reaches the collaborator —
so `infer_schema` does not perform the same pre-flight validation as
`parse`. -/
theorem infer_schema_memory_counterexample :
    ParallelCsvParser.parse envHuge (RustConfig.default 8) parserW "huge.csv"
      = .error (.MemoryLimitExceeded 16384 4096)
    ∧ ParallelCsvParser.infer_schema envHuge parserW "huge.csv"
      = .ok [("id", "Int64")] := by
  constructor
  · rfl
  · rfl

/-- C5 as amended: `infer_schema` validates only path existence (failing
with `NotFound` on a missing path); on an existing path it performs no
memory pre-flight at all and directly returns the collaborator engine's
schema, whatever the configured ceiling (the global config is not even an
input of this operation in the source). -/
theorem infer_schema_spec (env : Env) (p : ParallelCsvParser) (path : String) :
    (env.fs path = none →
      ParallelCsvParser.infer_schema env p path
        = .error (.IoError .NotFound ("File not found: " ++ path)))
    ∧ (∀ sz, env.fs path = some sz →
      ParallelCsvParser.infer_schema env p path
        = ((env.readCsv (schemaOpts p.config) path).map Table.schemaCols).mapError
            .PolarsError) := by
  refine ⟨?_, ?_⟩
  · intro h
    simp only [ParallelCsvParser.infer_schema, h]
  · intro sz hfs
    simp only [ParallelCsvParser.infer_schema, hfs]
    cases env.readCsv (schemaOpts p.config) path <;> rfl

/-- Witness for `infer_schema_spec`: the missing-file case and the
straight-to-collaborator case on the over-estimate file. -/
theorem infer_schema_spec_witness :
    ParallelCsvParser.infer_schema envHuge parserW "missing.csv"
      = .error (.IoError .NotFound ("File not found: " ++ "missing.csv"))
    ∧ ParallelCsvParser.infer_schema envHuge parserW "huge.csv"
      = ((envHuge.readCsv (schemaOpts parserW.config) "huge.csv").map
          Table.schemaCols).mapError .PolarsError :=
  ⟨(infer_schema_spec envHuge parserW "missing.csv").1 rfl,
   (infer_schema_spec envHuge parserW "huge.csv").2 (2 ^ 33) rfl⟩

/-- C6: for an existing file of byte size `S` (with `2 S` inside the `u64`
range, so the machine product does not wrap), `estimate_memory_usage`
returns exactly `S * 2 / (1024 * 1024)`, and `should_use_streaming` answers
`true` exactly when that estimate strictly exceeds the streaming config's
own `memory_limit_mb`.  Both are pure functions of the environment in this
embedding: neither has side effects, and neither reads the global
`RustConfig` ceiling (it is not an input of either operation). -/
theorem estimate_memory_spec (env : Env) (p : StreamingCsvParser) (path : String)
    (sz : Nat) (hfs : env.fs path = some sz) (hov : sz * 2 < U64) :
    StreamingCsvParser.estimate_memory_usage env p path
      = .ok (sz * 2 / (1024 * 1024))
    ∧ (StreamingCsvParser.should_use_streaming env p path
        = .ok (decide (sz * 2 / (1024 * 1024) > p.config.memory_limit_mb)))
    ∧ (StreamingCsvParser.should_use_streaming env p path = .ok true
        ↔ sz * 2 / (1024 * 1024) > p.config.memory_limit_mb) := by
  have hmod : sz * 2 % U64 = sz * 2 := Nat.mod_eq_of_lt hov
  have hest : StreamingCsvParser.estimate_memory_usage env p path
      = .ok (sz * 2 / (1024 * 1024)) := by
    simp only [StreamingCsvParser.estimate_memory_usage, hfs, hmod]
  refine ⟨hest, ?_, ?_⟩
  · simp only [StreamingCsvParser.should_use_streaming, hest]
  · simp only [StreamingCsvParser.should_use_streaming, hest, Except.ok.injEq,
      decide_eq_true_eq]

/-- A streaming ingestor with a 1 MB limit (so streaming is recommended for
the 100 MB file). -/
def streamTight : StreamingCsvParser :=
  { config := { chunk_size := 3, memory_limit_mb := 1, has_header := true, delimiter := 44 }
    has_progress_callback := false }

/-- Witness for `estimate_memory_spec` at the 100 MB file: estimate 200 MB,
above the 1 MB streaming limit used here. -/
theorem estimate_memory_spec_witness :
    StreamingCsvParser.estimate_memory_usage envBig streamTight "big.csv"
      = .ok (104857600 * 2 / (1024 * 1024))
    ∧ (StreamingCsvParser.should_use_streaming envBig streamTight "big.csv"
        = .ok (decide (104857600 * 2 / (1024 * 1024)
            > streamTight.config.memory_limit_mb)))
    ∧ (StreamingCsvParser.should_use_streaming envBig streamTight "big.csv" = .ok true
        ↔ 104857600 * 2 / (1024 * 1024) > streamTight.config.memory_limit_mb) :=
  estimate_memory_spec envBig streamTight "big.csv" 104857600 rfl (by decide)

/-- C9: `should_use_streaming` is antitone in the streaming config's
`memory_limit_mb`: for a fixed environment and file, if it recommends
streaming at the larger limit `L2` it also recommends it at any smaller
limit `L1` — lowering the limit can only flip the recommendation from false
to true. -/
theorem should_use_streaming_antitone (env : Env) (c : StreamingCsvConfig)
    (cb : Bool) (path : String) (L1 L2 : Nat) (h12 : L1 < L2)
    (h2 : StreamingCsvParser.should_use_streaming env
        ⟨{ c with memory_limit_mb := L2 }, cb⟩ path = .ok true) :
    StreamingCsvParser.should_use_streaming env
        ⟨{ c with memory_limit_mb := L1 }, cb⟩ path = .ok true := by
  cases hfs : env.fs path with
  | none =>
    rw [StreamingCsvParser.should_use_streaming,
      StreamingCsvParser.estimate_memory_usage, hfs] at h2
    exact absurd h2 (by simp)
  | some sz =>
    rw [StreamingCsvParser.should_use_streaming,
      StreamingCsvParser.estimate_memory_usage, hfs] at h2 ⊢
    simp only [Except.ok.injEq, decide_eq_true_eq] at h2 ⊢
    omega

/-- Witness for `should_use_streaming_antitone`: the 100 MB file is
recommended for streaming at limit 150 MB, hence also at limit 1 MB. -/
theorem should_use_streaming_antitone_witness :
    StreamingCsvParser.should_use_streaming envBig
        ⟨{ streamTight.config with memory_limit_mb := 1 }, false⟩ "big.csv" = .ok true :=
  should_use_streaming_antitone envBig streamTight.config false "big.csv" 1 150
    (by decide) rfl

/-- C10: `parse_streaming` never consults the streaming config's
`memory_limit_mb` — its whole result (value and progress trace) is unchanged
under any two limits — and for an existing file of at least 100 MB
(= 104857600 bytes) it takes the low-memory path, which has no memory
pre-flight at all: the result is never `MemoryLimitExceeded`, whatever the
limits. -/
theorem parse_streaming_no_memory_limit (env : Env) (global : RustConfig)
    (c : StreamingCsvConfig) (cb : Bool) (path : String) (L1 L2 sz : Nat)
    (hfs : env.fs path = some sz) :
    (StreamingCsvParser.parse_streaming env global
        ⟨{ c with memory_limit_mb := L1 }, cb⟩ path
      = StreamingCsvParser.parse_streaming env global
        ⟨{ c with memory_limit_mb := L2 }, cb⟩ path)
    ∧ (104857600 ≤ sz → ∀ r l,
        (StreamingCsvParser.parse_streaming env global ⟨c, cb⟩ path).1
          ≠ .error (.MemoryLimitExceeded r l)) := by
  refine ⟨?_, ?_⟩
  · simp only [StreamingCsvParser.parse_streaming, streamToParallelConfig, lowMemOpts]
  · intro hsz r l
    simp only [StreamingCsvParser.parse_streaming, hfs]
    rw [if_neg (by omega)]
    cases env.readCsv (lowMemOpts c) path <;> simp

/-- Witness for `parse_streaming_no_memory_limit` at the 100 MB file with
limits 1 and 4096. -/
theorem parse_streaming_no_memory_limit_witness :
    (StreamingCsvParser.parse_streaming envBig (RustConfig.default 8)
        ⟨{ streamTight.config with memory_limit_mb := 1 }, false⟩ "big.csv"
      = StreamingCsvParser.parse_streaming envBig (RustConfig.default 8)
        ⟨{ streamTight.config with memory_limit_mb := 4096 }, false⟩ "big.csv")
    ∧ (104857600 ≤ 104857600 → ∀ r l,
        (StreamingCsvParser.parse_streaming envBig (RustConfig.default 8)
          ⟨streamTight.config, false⟩ "big.csv").1
          ≠ .error (.MemoryLimitExceeded r l)) :=
  parse_streaming_no_memory_limit envBig (RustConfig.default 8) streamTight.config
    false "big.csv" 1 4096 104857600 rfl

/-- The post-thread stages of `configure` never touch the pool flag, the
built pool, or the stored thread count. -/
theorem configureRest_preserves (s : ProcState) (a : ConfigureArgs) :
    (configureRest s a).2.pool_initialized = s.pool_initialized
    ∧ (configureRest s a).2.pool = s.pool
    ∧ (configureRest s a).2.config.thread_count = s.config.thread_count := by
  rcases hcs : a.chunk_size with _ | cs <;>
    rcases hml : a.memory_limit_mb with _ | ml <;>
      rcases hsimd : a.enable_simd with _ | b <;>
        rcases hcache : a.cache_size with _ | n <;>
          simp [configureRest, hcs, hml, hsimd, hcache] <;>
            split_ifs <;> simp

/-- The thread stage with no `thread_count` argument is the identity. -/
theorem configureThread_none (numCpus : Nat) (s : ProcState) :
    configureThread numCpus s none = s := rfl

/-- The thread stage on an already-initialized pool: the config value is
updated, the flag and the built pool are untouched. -/
theorem configureThread_some_initialized (numCpus : Nat) (s : ProcState) (tc : Nat)
    (hinit : s.pool_initialized = true) :
    configureThread numCpus s (some tc)
      = { s with config :=
            { s.config with thread_count := if tc = 0 then numCpus else tc } } := by
  simp [configureThread, hinit]

/-- The thread stage on an uninitialized pool: the config value is stored,
the pool is built once, sized to the stored value, and the flag is set. -/
theorem configureThread_some_uninitialized (numCpus : Nat) (s : ProcState) (tc : Nat)
    (hinit : s.pool_initialized = false) :
    configureThread numCpus s (some tc)
      = { config := { s.config with thread_count := if tc = 0 then numCpus else tc }
          pool_initialized := true
          pool := some (if tc = 0 then numCpus else tc) } := by
  simp [configureThread, hinit]

/-- C7: the Rayon pool is built at most once per process.  Over one
`configure` step: once the flag is set it stays set and the built pool is
never touched again, even when a new `threadCount` is supplied (only the
stored config value changes); with the flag still unset, a call without
`threadCount` leaves flag and pool alone, and the first call that supplies
`threadCount = tc` sets the flag and builds the pool sized to `tc` (with 0
resolved to the detected CPU count), which is also the stored value. -/
theorem thread_pool_once (numCpus : Nat) (s : ProcState) (a : ConfigureArgs) :
    (s.pool_initialized = true →
      (configure numCpus s a).2.pool_initialized = true
      ∧ (configure numCpus s a).2.pool = s.pool)
    ∧ (s.pool_initialized = false → a.thread_count = none →
      (configure numCpus s a).2.pool_initialized = false
      ∧ (configure numCpus s a).2.pool = s.pool)
    ∧ (∀ tc, s.pool_initialized = false → a.thread_count = some tc →
      (configure numCpus s a).2.pool_initialized = true
      ∧ (configure numCpus s a).2.pool = some (if tc = 0 then numCpus else tc)
      ∧ (configure numCpus s a).2.config.thread_count
          = (if tc = 0 then numCpus else tc))
    ∧ (∀ tc, s.pool_initialized = true → a.thread_count = some tc →
      (configure numCpus s a).2.config.thread_count
          = (if tc = 0 then numCpus else tc)) := by
  refine ⟨?_, ?_, ?_, ?_⟩
  · intro hinit
    obtain ⟨h1, h2, _⟩ :=
      configureRest_preserves (configureThread numCpus s a.thread_count) a
    refine ⟨?_, ?_⟩
    · simp only [configure]
      rw [h1]
      rcases htc : a.thread_count with _ | tc
      · rw [configureThread_none]
        exact hinit
      · rw [configureThread_some_initialized numCpus s tc hinit]
        exact hinit
    · simp only [configure]
      rw [h2]
      rcases htc : a.thread_count with _ | tc
      · rw [configureThread_none]
      · rw [configureThread_some_initialized numCpus s tc hinit]
  · intro hinit htc
    obtain ⟨h1, h2, _⟩ :=
      configureRest_preserves (configureThread numCpus s a.thread_count) a
    rw [htc, configureThread_none] at h1 h2
    refine ⟨?_, ?_⟩ <;> simp only [configure, htc, configureThread_none]
    · rw [h1]
      exact hinit
    · exact h2
  · intro tc hinit htc
    obtain ⟨h1, h2, h3⟩ :=
      configureRest_preserves (configureThread numCpus s a.thread_count) a
    rw [htc, configureThread_some_uninitialized numCpus s tc hinit] at h1 h2 h3
    refine ⟨?_, ?_, ?_⟩ <;>
      simp only [configure, htc,
        configureThread_some_uninitialized numCpus s tc hinit]
    · rw [h1]
    · rw [h2]
    · rw [h3]
  · intro tc hinit htc
    obtain ⟨_, _, h3⟩ :=
      configureRest_preserves (configureThread numCpus s a.thread_count) a
    rw [htc, configureThread_some_initialized numCpus s tc hinit] at h3
    simp only [configure, htc, configureThread_some_initialized numCpus s tc hinit]
    rw [h3]

/-- The state after the pool was built at size 4. -/
def poolBuiltState : ProcState :=
  { config := { RustConfig.default 8 with thread_count := 4 }
    pool_initialized := true
    pool := some 4 }

/-- Witness for `thread_pool_once`: from the initial state, a call with
`threadCount = 4` builds the pool at size 4; from the resulting state, a
call with `threadCount = 16` updates the stored value but leaves the pool
built at 4. -/
theorem thread_pool_once_witness :
    ((configure 8 (ProcState.initial 8)
        { thread_count := some 4, chunk_size := none, memory_limit_mb := none,
          enable_simd := none, cache_size := none }).2.pool_initialized = true
      ∧ (configure 8 (ProcState.initial 8)
          { thread_count := some 4, chunk_size := none, memory_limit_mb := none,
            enable_simd := none, cache_size := none }).2.pool = some (if 4 = 0 then 8 else 4)
      ∧ (configure 8 (ProcState.initial 8)
          { thread_count := some 4, chunk_size := none, memory_limit_mb := none,
            enable_simd := none, cache_size := none }).2.config.thread_count
          = (if 4 = 0 then 8 else 4))
    ∧ ((configure 8 poolBuiltState
        { thread_count := some 16, chunk_size := none, memory_limit_mb := none,
          enable_simd := none, cache_size := none }).2.pool_initialized = true
      ∧ (configure 8 poolBuiltState
          { thread_count := some 16, chunk_size := none, memory_limit_mb := none,
            enable_simd := none, cache_size := none }).2.pool = poolBuiltState.pool) :=
  ⟨(thread_pool_once 8 (ProcState.initial 8)
      { thread_count := some 4, chunk_size := none, memory_limit_mb := none,
        enable_simd := none, cache_size := none }).2.2.1 4 rfl rfl,
   (thread_pool_once 8 poolBuiltState
      { thread_count := some 16, chunk_size := none, memory_limit_mb := none,
        enable_simd := none, cache_size := none }).1 rfl⟩

/-- Counterexample to C4: `configure(chunkSize = 5, memoryLimitMb = 0)` from
the default state fails with the validation error, yet the supplied
`chunkSize` has already been applied (5 instead of the prior 100000) — the
call is not all-or-nothing over the fields supplied in it. -/
theorem configure_not_all_or_nothing :
    (configure 8 (ProcState.initial 8)
        { thread_count := none, chunk_size := some 5, memory_limit_mb := some 0,
          enable_simd := none, cache_size := none }).1
      = .error (.ValueError "memory_limit_mb must be greater than 0")
    ∧ (configure 8 (ProcState.initial 8)
        { thread_count := none, chunk_size := some 5, memory_limit_mb := some 0,
          enable_simd := none, cache_size := none }).2.config.chunk_size = 5
    ∧ (ProcState.initial 8).config.chunk_size = 100000 := by
  refine ⟨rfl, rfl, rfl⟩

/-- The thread stage does not touch the four non-thread config fields. -/
theorem configureThread_other_fields (numCpus : Nat) (s : ProcState)
    (tc? : Option Nat) :
    (configureThread numCpus s tc?).config.chunk_size = s.config.chunk_size
    ∧ (configureThread numCpus s tc?).config.memory_limit_mb
        = s.config.memory_limit_mb
    ∧ (configureThread numCpus s tc?).config.enable_simd = s.config.enable_simd
    ∧ (configureThread numCpus s tc?).config.cache_size = s.config.cache_size := by
  rcases tc? with _ | tc <;> simp [configureThread] <;> split_ifs <;> simp

/-- C4 as amended: a supplied `chunkSize = 0` or `memoryLimitMb = 0` does
fail the call with a validation error, but the update is not all-or-nothing:
fields are applied in source order (threadCount with its pool side effect,
then chunkSize, memoryLimitMb, enableSimd, cacheSize) and only the fields at
or after the failing validation are left unmodified.  On `chunkSize = 0` the
chunk size, memory limit, SIMD flag and cache size all keep their prior
values (threadCount may have been applied); on `memoryLimitMb = 0` (with a
nonzero chunkSize) the memory limit, SIMD flag and cache size keep their
prior values but a supplied chunkSize has already been applied. -/
theorem configure_zero_validation (numCpus : Nat) (s : ProcState)
    (a : ConfigureArgs) :
    (a.chunk_size = some 0 →
      (configure numCpus s a).1
          = .error (.ValueError "chunk_size must be greater than 0")
      ∧ (configure numCpus s a).2.config.chunk_size = s.config.chunk_size
      ∧ (configure numCpus s a).2.config.memory_limit_mb = s.config.memory_limit_mb
      ∧ (configure numCpus s a).2.config.enable_simd = s.config.enable_simd
      ∧ (configure numCpus s a).2.config.cache_size = s.config.cache_size)
    ∧ (a.chunk_size ≠ some 0 → a.memory_limit_mb = some 0 →
      (configure numCpus s a).1
          = .error (.ValueError "memory_limit_mb must be greater than 0")
      ∧ (configure numCpus s a).2.config.memory_limit_mb = s.config.memory_limit_mb
      ∧ (configure numCpus s a).2.config.enable_simd = s.config.enable_simd
      ∧ (configure numCpus s a).2.config.cache_size = s.config.cache_size
      ∧ (configure numCpus s a).2.config.chunk_size
          = (match a.chunk_size with
              | none => s.config.chunk_size
              | some cs => cs)) := by
  obtain ⟨hc, hm, he, hk⟩ :=
    configureThread_other_fields numCpus s a.thread_count
  constructor
  · intro h0
    simp only [configure, configureRest, h0, if_pos rfl]
    exact ⟨rfl, hc, hm, he, hk⟩
  · intro hcs h0
    rcases hcso : a.chunk_size with _ | cs
    · simp only [configure, configureRest, hcso, h0]
      refine ⟨?_, ?_, ?_, ?_, ?_⟩ <;> simp [hc, hm, he, hk]
    · have hcs' : cs ≠ 0 := by
        intro hh
        exact hcs (by rw [hcso, hh])
      simp only [configure, configureRest, hcso, h0]
      rw [if_neg (by simp [hcs'])]
      refine ⟨rfl, ?_, ?_, ?_, ?_⟩ <;> simp [hc, hm, he, hk]

/-- Witness for `configure_zero_validation`: the `chunkSize = 0` call and
the `chunkSize = 5, memoryLimitMb = 0` call, both from the default state. -/
theorem configure_zero_validation_witness :
    ((configure 8 (ProcState.initial 8)
        { thread_count := none, chunk_size := some 0, memory_limit_mb := none,
          enable_simd := none, cache_size := none }).1
      = .error (.ValueError "chunk_size must be greater than 0")
      ∧ (configure 8 (ProcState.initial 8)
          { thread_count := none, chunk_size := some 0, memory_limit_mb := none,
            enable_simd := none, cache_size := none }).2.config.chunk_size
          = (ProcState.initial 8).config.chunk_size
      ∧ (configure 8 (ProcState.initial 8)
          { thread_count := none, chunk_size := some 0, memory_limit_mb := none,
            enable_simd := none, cache_size := none }).2.config.memory_limit_mb
          = (ProcState.initial 8).config.memory_limit_mb
      ∧ (configure 8 (ProcState.initial 8)
          { thread_count := none, chunk_size := some 0, memory_limit_mb := none,
            enable_simd := none, cache_size := none }).2.config.enable_simd
          = (ProcState.initial 8).config.enable_simd
      ∧ (configure 8 (ProcState.initial 8)
          { thread_count := none, chunk_size := some 0, memory_limit_mb := none,
            enable_simd := none, cache_size := none }).2.config.cache_size
          = (ProcState.initial 8).config.cache_size)
    ∧ ((configure 8 (ProcState.initial 8)
        { thread_count := none, chunk_size := some 5, memory_limit_mb := some 0,
          enable_simd := none, cache_size := none }).1
      = .error (.ValueError "memory_limit_mb must be greater than 0")
      ∧ (configure 8 (ProcState.initial 8)
          { thread_count := none, chunk_size := some 5, memory_limit_mb := some 0,
            enable_simd := none, cache_size := none }).2.config.memory_limit_mb
          = (ProcState.initial 8).config.memory_limit_mb) :=
  ⟨(configure_zero_validation 8 (ProcState.initial 8)
      { thread_count := none, chunk_size := some 0, memory_limit_mb := none,
        enable_simd := none, cache_size := none }).1 rfl,
   ((configure_zero_validation 8 (ProcState.initial 8)
      { thread_count := none, chunk_size := some 5, memory_limit_mb := some 0,
        enable_simd := none, cache_size := none }).2 (by decide) rfl).1,
   ((configure_zero_validation 8 (ProcState.initial 8)
      { thread_count := none, chunk_size := some 5, memory_limit_mb := some 0,
        enable_simd := none, cache_size := none }).2 (by decide) rfl).2.1⟩

/-- C8: the host-facing coercion works on the text rendering of each cell
and reinterprets it in the fixed order of the source: an integer when the
text parses as a whole `i64`; otherwise a float when it parses as an `f64`
decimal; otherwise a boolean exactly for the texts `"true"` and `"false"`;
otherwise the text itself — and an absent cell maps to the `None` sentinel,
with `series_to_python_list` applying this cell coercion positionally to the
whole rendered column. -/
theorem series_coercion_spec (val : String) :
    (∀ n, parseI64 val = some n → coerceCell (some val) = .int n)
    ∧ (parseI64 val = none → parsesF64 val = true →
        coerceCell (some val) = .float val)
    ∧ (parseI64 val = none → parsesF64 val = false →
        (val = "true" ∨ val = "false") → coerceCell (some val) = .bool (val == "true"))
    ∧ (parseI64 val = none → parsesF64 val = false →
        val ≠ "true" → val ≠ "false" → coerceCell (some val) = .str val)
    ∧ coerceCell none = .pynone
    ∧ (∀ cells : List (Option String),
        series_to_python_list cells = cells.map coerceCell) := by
  refine ⟨?_, ?_, ?_, ?_, rfl, fun _ => rfl⟩
  · intro n hn
    simp [coerceCell, hn]
  · intro hn hf
    simp [coerceCell, hn, hf]
  · intro hn hf hb
    have hbe : (val == "true" || val == "false") = true := by
      rcases hb with hb | hb <;> simp [hb]
    simp [coerceCell, hn, hf, hbe]
  · intro hn hf ht hfa
    have hbe : (val == "true" || val == "false") = false := by
      simp [ht, hfa]
    simp [coerceCell, hn, hf, hbe]

/-- Witness for `series_coercion_spec`: `"42"` is an integer, `"3.5"` a
float, `"true"` a boolean and `"abc"` stays text. -/
theorem series_coercion_spec_witness :
    coerceCell (some "42") = .int 42
    ∧ coerceCell (some "3.5") = .float "3.5"
    ∧ coerceCell (some "true") = .bool ("true" == "true")
    ∧ coerceCell (some "abc") = .str "abc" :=
  ⟨(series_coercion_spec "42").1 42 rfl,
   (series_coercion_spec "3.5").2.1 rfl rfl,
   (series_coercion_spec "true").2.2.1 rfl rfl (Or.inl rfl),
   (series_coercion_spec "abc").2.2.2.1 rfl rfl (by decide) (by decide)⟩

end Insightora
